import Mathlib

/-!
A shallow embedding of the varlink command-line tool's `call` and `help`
command flows (src/tool/command-call.c and src/tool/command-help.c), and
proofs about the reply loop, the error classification and the exit
behaviour of both flows.

The IPC client library below these two files (connection handling, the
JSON value type and its pretty printer, the interface-description value
type) is an external collaborator; its results enter the model as
explicit data (an `Option String` render result, Boolean success flags,
function parameters for the decoders).
-/

/-- The CLI error codes of the tool (its `cli.h` is not among the two
source files; the code and the spec only rely on the codes being distinct
and non-zero, so they are modelled as an inductive type). `other` stands
for any library error code that is propagated unchanged. -/
inductive CliError where
  | panic
  | cannotResolve
  | missingArgument
  | invalidArgument
  | invalidJson
  | cannotConnect
  | callFailed
  | remoteError
  | connectionClosed
  | canceled
  | other
deriving DecidableEq

/-- Observable effects of the flows: lines written to standard output and
standard error, the connection attempt (`cli_connect`) and the issued call
(`varlink_connection_call`). -/
inductive Ev where
  | out (s : String)
  | errOut (s : String)
  | connect
  | callSent
deriving DecidableEq

/-- Flag bit set by `-m`/`--more` and passed to `varlink_connection_call`
(value from the library's public header, which is external to the sources;
only its bit identity matters). -/
def VARLINK_CALL_MORE : Nat := 1

/-- Per-reply protocol flag "more replies follow" (value from the
library's public header, external to the sources). -/
def VARLINK_REPLY_CONTINUES : Nat := 1

/-- The structured value type of the IPC library, opaque to this layer. -/
abbrev VObj := String

/-- One inbound reply as the callback sees it: the optional remote error
name, the result of pretty-printing its parameters with
`varlink_object_to_pretty_json` (`none` when rendering fails, since the
value type itself is external), and the reply flags word. -/
structure Reply where
  error : Option String
  render : Option String
  flags : Nat
deriving DecidableEq

/-- What one invocation of the reply callback does: the lines it prints,
the value it writes through the `errorp` userdata pointer (if any), and
whether it called `varlink_connection_close`. -/
structure CallbackOut where
  events : List Ev
  errorSet : Option CliError
  closed : Bool
deriving DecidableEq

/-- `reply_callback` of src/tool/command-call.c: print the remote error
name (if any) to standard error, pretty-print the parameters — on failure
record `CLI_ERROR_INVALID_JSON` and close; print the rendered value; on a
remote error record `CLI_ERROR_REMOTE_ERROR` and close; otherwise close
exactly when the reply's `VARLINK_REPLY_CONTINUES` bit is clear. -/
def reply_callback (error : Option String) (render : Option String) (flags : Nat) : CallbackOut :=
  let errEvents : List Ev :=
    match error with
    | some e => [.errOut ("Call failed with error: " ++ e)]
    | none => []
  match render with
  | none =>
      { events := errEvents ++ [.errOut "Unable to read message"],
        errorSet := some .invalidJson,
        closed := true }
  | some json =>
      match error with
      | some _ =>
          { events := errEvents ++ [.out json],
            errorSet := some .remoteError,
            closed := true }
      | none =>
          { events := errEvents ++ [.out json],
            errorSet := none,
            closed := (flags &&& VARLINK_REPLY_CONTINUES == 0) }

/-- Result of the event-processing loop: `ok` is a non-negative return of
`cli_process_all_events` (the reply stream ended with the connection
closed by this side), the other two are its distinguished errors. -/
inductive LoopOutcome where
  | ok
  | canceled
  | connectionClosed
deriving DecidableEq

/-- Trace of one run of the event loop: printed lines, the final value of
the caller's `error` variable (written through the userdata pointer),
the outcome, and how many replies were delivered to the callback. -/
structure LoopOut where
  events : List Ev
  errorCell : Option CliError
  outcome : LoopOutcome
  delivered : Nat
deriving DecidableEq

/-- Modelled from the spec: `cli_process_all_events` and the library's
reply dispatch are not among the sources. The loop delivers the pending
replies to `reply_callback` one at a time; a cancellation signal arriving
while awaiting reply number `k` (0-based, `cancelAt = some k`) ends the
loop with `canceled`; when the callback has closed the connection the
loop ends non-negatively (`ok`); if the stream is exhausted before a
closing reply, the peer-initiated close ends it with `connectionClosed`.
A later write through the userdata pointer overrides an earlier one. -/
def run_loop_go : List CallbackOut → Option Nat → LoopOut
  | [], cancelAt =>
      if cancelAt = some 0 then ⟨[], none, .canceled, 0⟩
      else ⟨[], none, .connectionClosed, 0⟩
  | cb :: rest, cancelAt =>
      if cancelAt = some 0 then ⟨[], none, .canceled, 0⟩
      else
        if cb.closed then
          ⟨cb.events, cb.errorSet, .ok, 1⟩
        else
          let tail := run_loop_go rest (cancelAt.map (fun k => k - 1))
          ⟨cb.events ++ tail.events, tail.errorCell <|> cb.errorSet, tail.outcome, tail.delivered + 1⟩

/-- The loop over the pending replies: since `reply_callback` is pure,
each reply's callback effects are computed pointwise and the loop runs
over them. -/
def run_loop (replies : List Reply) (cancelAt : Option Nat) : LoopOut :=
  run_loop_go (replies.map (fun r => reply_callback r.error r.render r.flags)) cancelAt

/-- Target reference as produced by `varlink_uri_new`:
`[ADDRESS/]INTERFACE[.METHOD]`, with `qualified_member` the full
`INTERFACE.METHOD` string handed to `varlink_connection_call`. -/
structure VarlinkURI where
  address : Option String
  interface : String
  qualified_member : Option String
deriving DecidableEq

/-- Split a character list at the last occurrence of `c` (the separator
excluded from both parts); `none` when `c` does not occur. -/
def lastSplit (c : Char) (l : List Char) : Option (List Char × List Char) :=
  if l.contains c then
    let after := (l.reverse.takeWhile (fun x => x ≠ c)).reverse
    some (l.take (l.length - after.length - 1), after)
  else none

/-- Modelled from the spec: `varlink_uri_new` (src/uri.c is not among the
sources) splits `[ADDRESS/]INTERFACE[.METHOD]` — everything up to the
last `/` is the address when a `/` is present; the remainder is the
interface, or `INTERFACE.METHOD` split at the last `.`, with the whole
remainder kept as the qualified member; a malformed target (empty
interface or method portion) fails. -/
def varlink_uri_new (s : String) : Option VarlinkURI :=
  let chars := s.data
  let rest :=
    match lastSplit '/' chars with
    | some (a, t) => (some (String.mk a), t)
    | none => (none, chars)
  if rest.2.isEmpty then none
  else
    match lastSplit '.' rest.2 with
    | some (i, m) =>
        if i.isEmpty || m.isEmpty then none
        else some ⟨rest.1, String.mk i, some (String.mk rest.2)⟩
    | none => some ⟨rest.1, String.mk rest.2, none⟩

/-- The parsed `call` arguments (the `help` short-circuit of the C struct
is a separate constructor of `ParseOut` below). -/
structure CallArguments where
  flags : Nat
  uri : VarlinkURI
  parameters : Option String
deriving DecidableEq

/-- Result of `call_arguments_new`. -/
inductive ParseOut where
  | helpOut (flags : Nat)
  | ok (args : CallArguments)
  | err (e : CliError)
deriving DecidableEq

/-- Option scan of `getopt_long` with option string `":hm"` and long
options `--help`/`--more` (GNU permutation: operand tokens are collected
and option tokens are processed in the order encountered; `--` ends
option processing; `-` alone is an operand). -/
inductive ScanOut where
  | help (flags : Nat)
  | done (flags : Nat) (operands : List String)
  | bad (e : CliError)
deriving DecidableEq

def is_option_token (s : String) : Bool :=
  match s.data with
  | c :: _ => c = '-' && s ≠ "-"
  | [] => false

/-- How `getopt_long` treats one token under option string `":hm"`. -/
inductive TokenKind where
  | optEnd
  | optHelp
  | optMore
  | optBad
  | operand
deriving DecidableEq

def classify_token (t : String) : TokenKind :=
  if t = "--" then .optEnd
  else if t = "-h" || t = "--help" then .optHelp
  else if t = "-m" || t = "--more" then .optMore
  else if is_option_token t then .optBad
  else .operand

def scan_go : List (TokenKind × String) → Nat → List String → ScanOut
  | [], flags, operands => .done flags operands
  | kt :: rest, flags, operands =>
      match kt.1 with
      | .optEnd => .done flags (operands ++ rest.map (fun p => p.2))
      | .optHelp => .help flags
      | .optMore => scan_go rest (flags ||| VARLINK_CALL_MORE) operands
      | .optBad => .bad .invalidArgument
      | .operand => scan_go rest flags (operands ++ [kt.2])

def scan_tokens (tokens : List String) : ScanOut :=
  scan_go (tokens.map (fun t => (classify_token t, t))) 0 []

/-- `call_arguments_new` of src/tool/command-call.c: `-h` short-circuits
to the help output; an unknown option is `CLI_ERROR_INVALID_ARGUMENT`; a
missing target operand is `CLI_ERROR_MISSING_ARGUMENT`; a target that
`varlink_uri_new` rejects is `CLI_ERROR_INVALID_ARGUMENT`; the token
after the target (if any) is the raw parameter text. -/
def call_arguments_new (argvTokens : List String) : ParseOut :=
  match scan_tokens argvTokens with
  | .help flags => .helpOut flags
  | .bad e => .err e
  | .done flags operands =>
      match operands with
      | [] => .err .missingArgument
      | target :: rest =>
          match varlink_uri_new target with
          | none => .err .invalidArgument
          | some uri => .ok ⟨flags, uri, rest.head?⟩

/-- The stdin read loop of `call_run` (src/tool/command-call.c lines
171-185): while data remains, double the capacity (starting at 1024)
whenever the stored size has reached it, then read up to the remaining
capacity; stop when `read` returns 0. Returns the stored bytes and the
capacity at loop exit. `read` is modelled as returning
`min requested remaining` bytes of the stream. -/
def read_all_loop (remaining stored : List Char) (cap : Nat) : List Char × Nat :=
  let cap2 := if stored.length = cap then max (cap * 2) 1024 else cap
  if min (cap2 - stored.length) remaining.length = 0 then (stored, cap2)
  else
    read_all_loop (remaining.drop (min (cap2 - stored.length) remaining.length))
      (stored ++ remaining.take (min (cap2 - stored.length) remaining.length)) cap2
termination_by remaining.length
decreasing_by
  simp only [List.length_drop]
  omega

/-- Entry state of the stdin read loop: empty buffer, zero capacity. -/
def read_stdin (stdin : List Char) : List Char × Nat :=
  read_all_loop stdin [] 0

/-- The external world of one `call` invocation: the standard-input
stream, `varlink_object_new_from_json` (external), whether `cli_connect`
and `varlink_connection_call` succeed, the pending reply stream and the
position of a cancellation signal, if one arrives. -/
structure CallEnv where
  stdin : List Char
  decode : String → Option VObj
  connectOk : Bool
  callOk : Bool
  replies : List Reply
  cancelAt : Option Nat

/-- Trace of one `call_run`: printed lines and connection events, the
return value (`none` is 0), the final value of the local `error`
variable, and the parameters passed to `varlink_connection_call`
(`some none` is a call issued with NULL parameters). -/
structure RunOut where
  events : List Ev
  result : Option CliError
  errorCell : Option CliError
  sentParams : Option (Option VObj)
deriving DecidableEq

/-- The parameter text actually decoded (src/tool/command-call.c lines
166-188): the token itself, except that the token `-` stands for the
whole standard-input stream, read by the growth-doubling loop and
null-terminated. -/
def call_params_text (parameters : Option String) (stdin : List Char) : Option String :=
  match parameters with
  | none => none
  | some tok => some (if tok = "-" then String.mk (read_stdin stdin).1 else tok)

/-- The connected tail of `call_run` (src/tool/command-call.c lines
197-230): connect, issue the call, process events; a non-negative event
loop result returns 0, `CLI_ERROR_CANCELED` returns 0, a connection
closed by the peer is reported and propagated. The local `error`
variable is written by the callback but never read by `call_run`. -/
def call_connected (params : Option VObj) (env : CallEnv) : RunOut :=
  if env.connectOk = false then
    ⟨[.connect, .errOut "Unable to connect"], some .cannotConnect, none, none⟩
  else if env.callOk = false then
    ⟨[.connect, .callSent, .errOut "Unable to call"], some .callFailed, none, some params⟩
  else
    let loop := run_loop env.replies env.cancelAt
    match loop.outcome with
    | .ok => ⟨[.connect, .callSent] ++ loop.events, none, loop.errorCell, some params⟩
    | .canceled => ⟨[.connect, .callSent] ++ loop.events, none, loop.errorCell, some params⟩
    | .connectionClosed =>
        ⟨[.connect, .callSent] ++ loop.events ++ [.errOut "Connection closed."],
          some .connectionClosed, loop.errorCell, some params⟩

/-- `call_run` after successful argument parsing (src/tool/command-call.c
lines 161-230): require a qualified member, resolve the parameter text
(`-` reads standard input), decode it — failure is
`CLI_ERROR_INVALID_JSON` before any connection — then connect and run. -/
def call_run_with_args (args : CallArguments) (env : CallEnv) : RunOut :=
  match args.uri.qualified_member with
  | none => ⟨[.errOut "Missing method."], some .invalidArgument, none, none⟩
  | some _member =>
      match call_params_text args.parameters env.stdin with
      | none => call_connected none env
      | some t =>
          match env.decode t with
          | none =>
              ⟨[.errOut "Unable to parse input parameters, must be valid JSON"],
                some .invalidJson, none, none⟩
          | some obj => call_connected (some obj) env

/-- `call_run` of src/tool/command-call.c: parse the arguments, report
parse errors (before any connection event), print usage on `-h`, then
run the call. -/
def call_run (argvTokens : List String) (env : CallEnv) : RunOut :=
  match call_arguments_new argvTokens with
  | .err .missingArgument =>
      ⟨[.errOut "Missing argument, INTERFACE.METHOD [ARGUMENTS] expected"],
        some .missingArgument, none, none⟩
  | .err .invalidArgument =>
      ⟨[.errOut "Invalid argument, INTERFACE.METHOD [ARGUMENTS] expected"],
        some .invalidArgument, none, none⟩
  | .err _ => ⟨[.errOut "Unknown error."], some .panic, none, none⟩
  | .helpOut _ =>
      ⟨[.out "Usage: varlink call [ADDRESS/]INTERFACE.METHOD [ARGUMENTS]"], none, none, none⟩
  | .ok args => call_run_with_args args env

/-- The interface model produced by the external description parser,
opaque to this layer. -/
abbrev VIface := String

/-- The external world of one `help` invocation: the results of
`cli_call` and `cli_wait_reply`, the remote error name of the reply (if
any), the `description` field of the reply object (if present), the
external description decoder `varlink_interface_new` and the external
renderer `varlink_interface_write_interfacestring`. -/
structure HelpEnv where
  callResult : Option CliError
  waitResult : Option CliError
  replyError : Option String
  description : Option String
  parse : String → Option VIface
  write : VIface → Option String

/-- `help_interface` of src/tool/command-help.c: issue the introspection
call, wait for the reply; a remote error is printed and the function
returns 0; a reply without a `description` string is
`CLI_ERROR_CALL_FAILED`; a description the external parser rejects is
`CLI_ERROR_PANIC`; otherwise the rendered interface is printed. -/
def help_interface (env : HelpEnv) : List Ev × Option CliError :=
  match env.callResult with
  | some e => ([], some e)
  | none =>
  match env.waitResult with
  | some e => ([], some e)
  | none =>
  match env.replyError with
  | some err => ([.out ("Error: " ++ err)], none)
  | none =>
  match env.description with
  | none => ([], some .callFailed)
  | some desc =>
  match env.parse desc with
  | none => ([], some .panic)
  | some intf =>
  match env.write intf with
  | none => ([], some .other)
  | some s => ([.out s], none)

/-- Exit status of `help_run` (`EXIT_SUCCESS`, `EXIT_FAILURE`, or the
positive resolve/connect error codes it returns directly). -/
inductive HelpExit where
  | success
  | failure
  | cannotResolve
  | cannotConnect
deriving DecidableEq

/-- `help_run` of src/tool/command-help.c: `-h` prints usage and exits
successfully, an invalid option exits with `EXIT_FAILURE`, a missing
target prints usage and exits with `EXIT_FAILURE`; then the address is
resolved (when not given) and connected; finally any negative return of
`help_interface` becomes `EXIT_FAILURE` and a non-negative one
`EXIT_SUCCESS`. -/
def help_run (helpFlag : Bool) (optsOk : Bool) (hasTarget : Bool)
    (addressGiven : Bool) (resolveOk : Bool) (connectOk : Bool)
    (env : HelpEnv) : List Ev × HelpExit :=
  if helpFlag then ([.out "Usage: varlink help [ADDRESS/]INTERFACE"], .success)
  else if optsOk = false then ([.errOut "Try --help for more information"], .failure)
  else if hasTarget = false then ([.errOut "Usage: varlink help [ADDRESS/]INTERFACE"], .failure)
  else if addressGiven = false && resolveOk = false then
    ([.errOut "Error resolving interface"], .cannotResolve)
  else if connectOk = false then ([.errOut "Error connecting"], .cannotConnect)
  else
    let r := help_interface env
    (r.1, match r.2 with | some _ => .failure | none => .success)

/-- Invariant of the stdin read loop: starting from a stored size within
capacity, the loop consumes the whole stream, and at loop exit the stored
size is strictly below the capacity (so the terminating null byte written
at index `size` lies inside the allocated buffer). -/
theorem read_all_loop_spec (remaining stored : List Char) (cap : Nat)
    (h : stored.length ≤ cap) :
    (read_all_loop remaining stored cap).1 = stored ++ remaining ∧
    (read_all_loop remaining stored cap).1.length < (read_all_loop remaining stored cap).2 := by
  rw [read_all_loop]
  have hlt : stored.length < if stored.length = cap then max (cap * 2) 1024 else cap := by
    split <;> omega
  set cap2 := if stored.length = cap then max (cap * 2) 1024 else cap with hcap2
  by_cases h0 : min (cap2 - stored.length) remaining.length = 0
  · rw [if_pos h0]
    have hrem : remaining = [] := by
      have : remaining.length = 0 := by omega
      exact List.length_eq_zero.mp this
    subst hrem
    simpa using hlt
  · rw [if_neg h0]
    have ih := read_all_loop_spec
      (remaining.drop (min (cap2 - stored.length) remaining.length))
      (stored ++ remaining.take (min (cap2 - stored.length) remaining.length)) cap2
      (by
        simp only [List.length_append, List.length_take]
        omega)
    refine ⟨?_, ih.2⟩
    rw [ih.1, List.append_assoc, List.take_append_drop]
termination_by remaining.length
decreasing_by
  simp only [List.length_drop]
  omega

/-- Unfolding of the loop on a delivered reply (the cancellation signal
has not arrived yet). -/
theorem run_loop_cons (r : Reply) (rest : List Reply) (cancelAt : Option Nat)
    (h : cancelAt ≠ some 0) :
    run_loop (r :: rest) cancelAt =
      (let cb := reply_callback r.error r.render r.flags
       if cb.closed then ⟨cb.events, cb.errorSet, .ok, 1⟩
       else
         let tail := run_loop rest (cancelAt.map (fun k => k - 1))
         ⟨cb.events ++ tail.events, tail.errorCell <|> cb.errorSet, tail.outcome,
           tail.delivered + 1⟩) := by
  simp only [run_loop, List.map_cons]
  rw [run_loop_go, if_neg h]

/-- A cancellation scheduled while awaiting reply number `k` lets at most
`k` replies reach the callback. -/
theorem run_loop_delivered_le (replies : List Reply) :
    ∀ k : Nat, (run_loop replies (some k)).delivered ≤ k := by
  induction replies with
  | nil =>
      intro k
      cases k with
      | zero => exact Nat.le_refl _
      | succ k => exact Nat.zero_le _
  | cons r rest ih =>
      intro k
      cases k with
      | zero => exact Nat.le_refl _
      | succ k =>
          rw [run_loop_cons r rest (some (k + 1)) (by simp)]
          simp only [Option.map_some', Nat.add_sub_cancel]
          split
          · exact Nat.succ_le_succ (Nat.zero_le _)
          · exact Nat.succ_le_succ (ih k)

/-- The loop delivers nothing when the cancellation signal has already
arrived. -/
theorem run_loop_cancel_zero (replies : List Reply) :
    run_loop replies (some 0) = ⟨[], none, .canceled, 0⟩ := by
  cases replies <;> rfl

/-- C1 (amended): after rendering a success reply, the loop awaits
further replies if and only if the reply's protocol-level continues
indicator is set; the caller's STREAMING flag is passed with the call but
does not participate in this local decision. For every success reply with
the indicator clear, the connection is closed and the call terminates
with outcome completed (the event loop ends non-negatively and `call_run`
returns 0). -/
theorem C1_success_reply_closes_iff_no_continues (v : String) (f fl : Nat)
    (rest : List Reply) (dec : String → Option VObj) (stdinv : List Char) :
    (reply_callback none (some v) f).closed = (f &&& VARLINK_REPLY_CONTINUES == 0) ∧
    (run_loop (⟨none, some v, 0⟩ :: rest) none).outcome = .ok ∧
    (run_loop (⟨none, some v, 0⟩ :: rest) none).delivered = 1 ∧
    (call_run_with_args ⟨fl, ⟨none, "com.example", some "com.example.Method"⟩, none⟩
        ⟨stdinv, dec, true, true, ⟨none, some v, 0⟩ :: rest, none⟩).result = none := by
  refine ⟨rfl, ?_, ?_, ?_⟩ <;>
    simp [call_run_with_args, call_params_text, call_connected, run_loop, run_loop_go,
      reply_callback, VARLINK_REPLY_CONTINUES]

/-- C1 counterexample: a success reply whose continues indicator is set,
received by a caller that did NOT request streaming (no `-m` in the
argument vector), does not close the connection — the loop keeps awaiting
replies — and the call does not terminate with outcome completed: once
the stream ends the run fails with `connectionClosed`. The claim, as
stated, requires the connection to be closed and the call to complete
because the STREAMING condition fails. -/
theorem C1_counterexample :
    (reply_callback none (some "payload") VARLINK_REPLY_CONTINUES).closed = false ∧
    (call_run ["com.example.Method"]
        ⟨[], fun s => some s, true, true,
          [⟨none, some "payload", VARLINK_REPLY_CONTINUES⟩], none⟩).result =
      some .connectionClosed := by
  exact ⟨by decide, by decide⟩

/-- C2 (code evidence): on a reply whose value cannot be rendered, the
callback records `CLI_ERROR_INVALID_JSON` in the caller's `error`
variable and closes the connection without awaiting further replies
(only 1 of the 2 pending replies is delivered) — but `call_run` never
reads that variable and returns 0, so the process does not exit with the
distinct InvalidJson code. -/
theorem C2_render_failure_records_invalid_json_but_returns_zero :
    (call_run ["com.example.Method"]
        ⟨[], fun s => some s, true, true,
          [⟨none, none, 0⟩, ⟨none, some "second", 0⟩], none⟩).errorCell =
      some .invalidJson ∧
    (call_run ["com.example.Method"]
        ⟨[], fun s => some s, true, true,
          [⟨none, none, 0⟩, ⟨none, some "second", 0⟩], none⟩).result = none ∧
    (run_loop [⟨none, none, 0⟩, ⟨none, some "second", 0⟩] none).delivered = 1 := by
  exact ⟨by decide, by decide, by decide⟩

/-- C3: a reply carrying a remote error name prints the error line first,
still renders the accompanying value (exactly one render), closes the
connection — ending the loop after one delivered reply regardless of the
reply flags, the pending rest of the stream and the caller's flags — and
`call_run` returns 0. -/
theorem C3_remote_error_reported_then_success_exit (e v : String) (f fl : Nat)
    (rest : List Reply) (dec : String → Option VObj) (stdinv : List Char) :
    (reply_callback (some e) (some v) f).events =
      [.errOut ("Call failed with error: " ++ e), .out v] ∧
    (reply_callback (some e) (some v) f).closed = true ∧
    run_loop (⟨some e, some v, f⟩ :: rest) none =
      ⟨[.errOut ("Call failed with error: " ++ e), .out v], some .remoteError, .ok, 1⟩ ∧
    (call_run_with_args ⟨fl, ⟨none, "com.example", some "com.example.Method"⟩, none⟩
        ⟨stdinv, dec, true, true, ⟨some e, some v, f⟩ :: rest, none⟩).result = none := by
  refine ⟨rfl, rfl, ?_, ?_⟩ <;>
    simp [call_run_with_args, call_params_text, call_connected, run_loop, run_loop_go,
      reply_callback]

/-- C10: a reply carrying both a remote error name and a value that fails
to render records `CLI_ERROR_INVALID_JSON` — not `CLI_ERROR_REMOTE_ERROR`
— because the render-failure branch returns before the remote-error
branch is reached; the error line has already been printed at that
point, and the connection is closed. -/
theorem C10_render_failure_wins_over_remote_error (e : String) (f : Nat)
    (rest : List Reply) :
    (reply_callback (some e) none f).errorSet = some .invalidJson ∧
    (reply_callback (some e) none f).closed = true ∧
    (reply_callback (some e) none f).events =
      [.errOut ("Call failed with error: " ++ e), .errOut "Unable to read message"] ∧
    (run_loop (⟨some e, none, f⟩ :: rest) none).errorCell = some .invalidJson := by
  refine ⟨rfl, rfl, rfl, ?_⟩
  simp [run_loop, run_loop_go, reply_callback]

/-- C4: when the event loop is ended by a user cancellation signal while
awaiting a reply, `call_run` returns 0 (cancellation is not reported as
an error) and performs no renders beyond those of the replies delivered
before the signal: the run's trace is exactly the connection events
followed by the loop's trace, and at most `k` replies were delivered when
the signal arrived while awaiting reply number `k`. -/
theorem C4_cancellation_success_no_further_renders (stdinv : List Char)
    (dec : String → Option VObj) (replies : List Reply) (k fl : Nat)
    (h : (run_loop replies (some k)).outcome = .canceled) :
    (call_run_with_args ⟨fl, ⟨none, "com.example", some "com.example.Method"⟩, none⟩
        ⟨stdinv, dec, true, true, replies, some k⟩).result = none ∧
    (call_run_with_args ⟨fl, ⟨none, "com.example", some "com.example.Method"⟩, none⟩
        ⟨stdinv, dec, true, true, replies, some k⟩).events =
      [.connect, .callSent] ++ (run_loop replies (some k)).events ∧
    (run_loop replies (some k)).delivered ≤ k := by
  refine ⟨?_, ?_, run_loop_delivered_le replies k⟩ <;>
    simp [call_run_with_args, call_params_text, call_connected, h]

/-- C4 witness: cancellation while awaiting reply number 1 of a 3-reply
stream ends with return 0 and a single delivered reply. -/
theorem C4_cancellation_witness :
    (call_run_with_args ⟨0, ⟨none, "com.example", some "com.example.Method"⟩, none⟩
        ⟨[], fun s => some s, true, true,
          [⟨none, some "r1", 1⟩, ⟨none, some "r2", 1⟩, ⟨none, some "r3", 0⟩], some 1⟩).result =
      none ∧
    (call_run_with_args ⟨0, ⟨none, "com.example", some "com.example.Method"⟩, none⟩
        ⟨[], fun s => some s, true, true,
          [⟨none, some "r1", 1⟩, ⟨none, some "r2", 1⟩, ⟨none, some "r3", 0⟩], some 1⟩).events =
      [.connect, .callSent] ++
        (run_loop [⟨none, some "r1", 1⟩, ⟨none, some "r2", 1⟩, ⟨none, some "r3", 0⟩]
          (some 1)).events ∧
    (run_loop [⟨none, some "r1", 1⟩, ⟨none, some "r2", 1⟩, ⟨none, some "r3", 0⟩]
        (some 1)).delivered ≤ 1 :=
  C4_cancellation_success_no_further_renders [] (fun s => some s)
    [⟨none, some "r1", 1⟩, ⟨none, some "r2", 1⟩, ⟨none, some "r3", 0⟩] 1 0 (by decide)

/-- A String is determined by its character data. -/
theorem string_mk_data (s : String) : String.mk s.data = s := by
  cases s
  rfl

/-- C5: the `-` parameter token with JSON text `J` on standard input is
interchangeable with passing `J` directly as the parameter token: the two
runs are identical (same decoded parameters, same trace, same result). -/
theorem C5_stdin_sentinel_equivalent_to_literal (J : String) (fl : Nat)
    (uri : VarlinkURI) (dec : String → Option VObj) (co cok : Bool)
    (replies : List Reply) (cancelAt : Option Nat) :
    call_run_with_args ⟨fl, uri, some "-"⟩ ⟨J.data, dec, co, cok, replies, cancelAt⟩ =
      call_run_with_args ⟨fl, uri, some J⟩ ⟨J.data, dec, co, cok, replies, cancelAt⟩ := by
  have h := (read_all_loop_spec J.data [] 0 (Nat.le_refl 0)).1
  rw [List.nil_append] at h
  have hread : String.mk (read_stdin J.data).1 = J := by
    rw [read_stdin, h, string_mk_data]
  have hp : call_params_text (some "-") J.data = call_params_text (some J) J.data := by
    simp only [call_params_text]
    by_cases hJ : J = "-"
    · simp [hJ]
    · simp [hJ, hread]
  simp only [call_run_with_args]
  rw [hp]

/-- The connected tail of `call_run` never produces an argument error:
its results are drawn from the connection, call and loop outcomes. -/
theorem call_connected_result_not_arg_error (params : Option VObj) (env : CallEnv) :
    ¬((call_connected params env).result = some .missingArgument ∨
      (call_connected params env).result = some .invalidArgument) := by
  cases hco : env.connectOk <;> cases hcok : env.callOk <;>
    cases hout : (run_loop env.replies env.cancelAt).outcome <;>
      simp [call_connected, hco, hcok, hout]

/-- C6: an argument vector whose option scan completes without a target
operand makes `call_run` return `CLI_ERROR_MISSING_ARGUMENT` with no
connection attempt in its trace; and in general, whenever `call_run`
returns an argument or target error (missing or invalid), no connection
attempt has occurred. -/
theorem C6_missing_target_no_connect (argvTokens : List String) (env : CallEnv) :
    (call_arguments_new argvTokens = .err .missingArgument →
      (call_run argvTokens env).result = some .missingArgument ∧
      Ev.connect ∉ (call_run argvTokens env).events) ∧
    (((call_run argvTokens env).result = some .missingArgument ∨
        (call_run argvTokens env).result = some .invalidArgument) →
      Ev.connect ∉ (call_run argvTokens env).events) := by
  constructor
  · intro hp
    constructor
    · simp [call_run, hp]
    · simp [call_run, hp]
  · intro hr
    rcases hpa : call_arguments_new argvTokens with fl | args | e
    · simp [call_run, hpa] at hr
    · obtain ⟨flg, ⟨addr, ifc, qm⟩, params⟩ := args
      simp only [call_run, hpa] at hr ⊢
      cases qm with
      | none => simp [call_run_with_args]
      | some m =>
          simp only [call_run_with_args] at hr ⊢
          cases hct : call_params_text params env.stdin with
          | none =>
              simp only [hct] at hr ⊢
              exact absurd hr (call_connected_result_not_arg_error _ _)
          | some t =>
              simp only [hct] at hr ⊢
              cases hdec : env.decode t with
              | none => simp only [hdec] at hr ⊢; simp at hr
              | some obj =>
                  simp only [hdec] at hr ⊢
                  exact absurd hr (call_connected_result_not_arg_error _ _)
    · cases e <;> simp [call_run, hpa] at hr ⊢

/-- C6 witness: the empty argument vector is missing its target; the run
returns `CLI_ERROR_MISSING_ARGUMENT` and no connection attempt occurs. -/
theorem C6_missing_target_witness :
    (call_run [] ⟨[], fun s => some s, true, true, [], none⟩).result =
      some .missingArgument ∧
    Ev.connect ∉ (call_run [] ⟨[], fun s => some s, true, true, [], none⟩).events :=
  (C6_missing_target_no_connect [] ⟨[], fun s => some s, true, true, [], none⟩).1 (by decide)

/-- C7: when the introspection call returns a remote error (for example,
the interface does not exist), `help_interface` prints the error and
returns 0, and `help_run` exits with `EXIT_SUCCESS` — regardless of the
rest of the reply and of the external parser and renderer. -/
theorem C7_help_remote_error_prints_and_succeeds (e : String) (desc : Option String)
    (p : String → Option VIface) (w : VIface → Option String) :
    help_interface ⟨none, none, some e, desc, p, w⟩ = ([.out ("Error: " ++ e)], none) ∧
    help_run false true true true true true ⟨none, none, some e, desc, p, w⟩ =
      ([.out ("Error: " ++ e)], .success) := by
  exact ⟨rfl, rfl⟩

/-- C8: when the description text returned by the service fails to parse
into an interface model, `help_interface` classifies the failure as
`CLI_ERROR_PANIC` and `help_run` exits with the non-zero
`EXIT_FAILURE`. -/
theorem C8_unparseable_description_is_panic (desc : String)
    (p : String → Option VIface) (w : VIface → Option String)
    (hp : p desc = none) :
    help_interface ⟨none, none, none, some desc, p, w⟩ = ([], some .panic) ∧
    help_run false true true true true true ⟨none, none, none, some desc, p, w⟩ =
      ([], .failure) := by
  have h1 : help_interface ⟨none, none, none, some desc, p, w⟩ = ([], some .panic) := by
    simp [help_interface, hp]
  refine ⟨h1, ?_⟩
  simp [help_run, h1]

/-- C8 witness: a parser that rejects the returned description yields the
Panic classification and a failing exit. -/
theorem C8_unparseable_description_witness :
    help_interface ⟨none, none, none, some "interface com.example", fun _ => none,
        fun i => some i⟩ = ([], some .panic) ∧
    help_run false true true true true true
        ⟨none, none, none, some "interface com.example", fun _ => none, fun i => some i⟩ =
      ([], .failure) :=
  C8_unparseable_description_is_panic "interface com.example" (fun _ => none)
    (fun i => some i) rfl

/-- C9: the stdin read loop consumes the entire stream and, at the moment
it exits, the number of stored bytes is strictly below the buffer
capacity, so the terminating null byte written at index `size` lies
inside the allocated buffer and the text handed to the JSON decoder is
the whole, null-terminated input. -/
theorem C9_read_loop_exit_below_capacity (stdin : List Char) :
    (read_stdin stdin).1.length < (read_stdin stdin).2 ∧
    (read_stdin stdin).1 = stdin := by
  have h := read_all_loop_spec stdin [] 0 (Nat.le_refl 0)
  rw [List.nil_append] at h
  exact ⟨h.2, h.1⟩
